import Mathlib

/-!
Verification development for the Query_Chatbot insurance RAG pipeline.

The Python sources are shallowly embedded: external services (the Gemini
text-generation calls, the Milvus similarity search, and the standard-library
`json.loads`) are passed in as explicit function parameters, Python exceptions
are `Except String`, Python dicts with heterogeneous values are association
lists over a JSON value type, and each repository function becomes a total
Lean function over those.
-/

namespace QueryChatbot

/-- JSON values, as produced by Python's `json.loads` and consumed by the
pipeline's dict accesses. -/
inductive JValue where
  | jnull : JValue
  | jbool : Bool → JValue
  | jnum : Int → JValue
  | jstr : String → JValue
  | jarr : List JValue → JValue
  | jobj : List (String × JValue) → JValue

/-- A Python dict with string keys, as the repository functions build and
return them. Insertion order is significant (CPython dicts preserve it). -/
abbrev PyDict := List (String × JValue)

/-- The result of a Python call: a normal value, or a raised exception
carried as its message string. -/
abbrev ExtCall (α : Type) := Except String α

/-- Python `d[k]` read that yields `none` when the key is absent. -/
def dictGet : PyDict → String → Option JValue
  | [], _ => none
  | (k', v') :: rest, k => if k' = k then some v' else dictGet rest k

/-- Python `d[k] = v`: overwrite in place when the key exists (its position
is kept), otherwise append at the end. -/
def dictSet : PyDict → String → JValue → PyDict
  | [], k, v => [(k, v)]
  | (k', v') :: rest, k, v =>
    if k' = k then (k', v) :: rest else (k', v') :: dictSet rest k v

/-- Python `d[k]` as an expression: raises `KeyError` when the key is absent. -/
def pyGetItem (d : PyDict) (k : String) : ExtCall JValue :=
  match dictGet d k with
  | some v => .ok v
  | none => .error ("KeyError: " ++ k)

/-- Models `re.search(r'\x7b.*\x7d', s, re.DOTALL)`: with a greedy `.*` that may
cross newlines, the match (when it exists) runs from the first `\x7b` of the
text to the last `\x7d`, and exists exactly when that last `\x7d` comes after
that first `\x7b`. -/
def findJsonSpan (s : String) : Option String :=
  let cs := s.toList
  match cs.findIdx? (· = '\x7b'), cs.reverse.findIdx? (· = '\x7d') with
  | some i, some jr =>
    let j := cs.length - 1 - jr
    if i < j then some (String.mk ((cs.drop i).take (j - i + 1))) else none
  | _, _ => none

namespace QueryParser

/-- External collaborators of the query parser (src/query_parser.py).
`structureRun` is `structure_chain.run(query=query)` — the rendered prompt
varies only in the query, so the call is keyed by it; `jsonLoads` is Python's
`json.loads` applied to a `\x7b...\x7d` span (an object on success);
`enhanceRun` is `enhancement_chain.run(original_query=..., structured_data=...)`
— the source serialises the dict with `json.dumps(..., indent=2)` before the
call, which the external model sees only as text, so the dict is passed here
unserialised. -/
structure ParserEnv where
  structureRun : String → ExtCall String
  jsonLoads : String → ExtCall PyDict
  enhanceRun : JValue → PyDict → ExtCall String

/-- The in-`try` fallback dict built when no JSON object is found in the
structuring output (src/query_parser.py lines 67-76). -/
def parserFallback (query : String) : PyDict :=
  [("age", .jnull), ("gender", .jnull), ("procedure", .jnull),
   ("location", .jnull), ("policy_duration_months", .jnull),
   ("query_type", .jstr "general"), ("keywords", .jarr [.jstr query])]

/-- The `except` fallback dict of `parse_query` (src/query_parser.py
lines 84-93). -/
def parserErrorFallback (query : String) : PyDict :=
  [("original_query", .jstr query), ("age", .jnull), ("gender", .jnull),
   ("procedure", .jnull), ("location", .jnull),
   ("policy_duration_months", .jnull), ("query_type", .jstr "general"),
   ("keywords", .jarr [.jstr query])]

/-- Embedding of `QueryParser.parse_query` (src/query_parser.py lines 55-93): run the
structuring chain, take the first JSON object of the raw output, fall back to
a fixed structure when no object is found, add `original_query`, and catch
every exception with the error fallback. -/
def parse_query (env : ParserEnv) (query : String) : PyDict :=
  let attempt : ExtCall PyDict := do
    let structured_output ← env.structureRun query
    match findJsonSpan structured_output with
    | some jtext => env.jsonLoads jtext
    | none => .ok (parserFallback query)
  match attempt with
  | .ok structured_data => dictSet structured_data "original_query" (.jstr query)
  | .error _ => parserErrorFallback query

/-- Whether a value may be a member of a Python `set` (lists and dicts are
unhashable). -/
def hashable : JValue → Bool
  | .jarr _ => false
  | .jobj _ => false
  | _ => true

/-- Python `==` on the hashable cases, as `set` membership uses it. -/
def pyEqScalar : JValue → JValue → Bool
  | .jnull, .jnull => true
  | .jbool a, .jbool b => a = b
  | .jnum a, .jnum b => a = b
  | .jstr a, .jstr b => a = b
  | _, _ => false

/-- Python `list(set(xs))`: hashes each element in order (raising `TypeError` at the
first unhashable one) and drops duplicates. CPython's set iteration order is
unspecified; it is modelled as first-occurrence order, and every property
proved about it below depends only on membership or emptiness, which the
order does not affect. -/
def pySetList (seen : List JValue) : List JValue → ExtCall (List JValue)
  | [] => .ok []
  | x :: xs =>
    if hashable x then
      if seen.any (pyEqScalar x) then pySetList seen xs
      else do
        let rest ← pySetList (x :: seen) xs
        .ok (x :: rest)
    else .error "TypeError: unhashable type"

/-- The concatenation `keywords + phrases` needs the keywords value to be a list; any other
type raises `TypeError` on the concatenation. -/
def asPyList : JValue → ExtCall (List JValue)
  | .jarr xs => .ok xs
  | _ => .error "TypeError: can only concatenate list"

/-- Embedding of `QueryParser.enhance_for_retrieval` (src/query_parser.py lines 95-113):
run the enhancement chain, split its output into stripped non-empty lines,
concatenate onto `parsed_query.get("keywords", [])` and deduplicate with
`list(set(...))`. On any exception the `except` branch evaluates
`parsed_query.get("keywords", [parsed_query["original_query"]])` — whose
default indexes `original_query` eagerly, so a missing `original_query`
raises `KeyError` out of the handler. -/
def enhance_for_retrieval (env : ParserEnv) (parsed_query : PyDict) :
    ExtCall JValue :=
  let attempt : ExtCall (List JValue) := do
    let oq ← pyGetItem parsed_query "original_query"
    let enhanced_output ← env.enhanceRun oq parsed_query
    let phrases :=
      ((enhanced_output.splitOn "\n").map String.trim).filter (fun p => p ≠ "")
    let kw ← asPyList ((dictGet parsed_query "keywords").getD (.jarr []))
    pySetList [] (kw ++ phrases.map JValue.jstr)
  match attempt with
  | .ok all_phrases => .ok (.jarr all_phrases)
  | .error _ => do
    let oq ← pyGetItem parsed_query "original_query"
    .ok ((dictGet parsed_query "keywords").getD (.jarr [oq]))

/-- Embedding of `QueryParser.process_query` (src/query_parser.py lines 115-123):
parse, then enhance, then attach `enhanced_search_phrases`. -/
def process_query (env : ParserEnv) (query : String) : ExtCall PyDict := do
  let structured_data := parse_query env query
  let enhanced_phrases ← enhance_for_retrieval env structured_data
  .ok (dictSet structured_data "enhanced_search_phrases" enhanced_phrases)

/-- Embedding of `parse_insurance_query` (src/query_parser.py lines 129-131). -/
def parse_insurance_query (env : ParserEnv) (query : String) : ExtCall PyDict :=
  process_query env query

end QueryParser

namespace DecisionEngine

/-- The patient fields consumed by `make_decision`, carried as the strings
they render to inside the decision prompt (the source passes them to
`decision_chain.run`, which `str()`s each into the template). -/
structure PatientData where
  age : String
  gender : String
  procedure : String
  location : String
  duration : String
deriving DecidableEq

/-- The `patient_details` metadata value attached to a decision dict. -/
def encodePatient (pd : PatientData) : JValue :=
  .jobj [("age", .jstr pd.age), ("gender", .jstr pd.gender),
         ("procedure", .jstr pd.procedure), ("location", .jstr pd.location),
         ("duration", .jstr pd.duration)]

/-- The decision prompt of src/decision_engine.py lines 23-56 after template
substitution: the retrieved clause text and the five patient fields embedded
in the fixed adjudication instructions (the `\x7b\x7b ... \x7d\x7d` block of
the template renders to literal braces). -/
def decisionPromptText (clauses age gender procedure location duration : String) :
    String :=
  "\nYou are an expert insurance claims adjudication system.\n\nBased on the policy clauses and patient details, determine:\n- Whether the claim should be APPROVED or REJECTED  \n- If approved, suggest a payout amount (default ₹50,000 for standard surgery)\n- Provide justification citing exact phrases from the clauses\n\n### Policy Clauses:\n"
  ++ clauses
  ++ "\n\n### Patient Details:\n- Age: " ++ age
  ++ "\n- Gender: " ++ gender
  ++ "  \n- Procedure: " ++ procedure
  ++ "\n- Location: " ++ location
  ++ "\n- Policy Duration (months): " ++ duration
  ++ "\n\n### Decision Rules:\n- Policies under 24 months do NOT cover knee/joint replacement surgeries\n- Only emergency orthopedic care is allowed before 24 months\n- Non-emergency knee surgery requires ≥24 months of coverage\n- Pre-existing conditions may affect coverage\n- Location-based treatment costs vary\n\nReturn response in strict JSON format:\n\x7b\n    \"decision\": \"APPROVED\" or \"REJECTED\",\n    \"amount\": number or null,\n    \"justification\": \"detailed explanation with clause references\",\n    \"risk_factors\": [\"list of identified risk factors\"],\n    \"coverage_status\": \"full/partial/none\"\n\x7d\n\nJSON Response:"

/-- External collaborators of the decision engine (src/decision_engine.py).
`retrieveClauses i` is the `i`-th call to `retrieve_clauses(query)` within
one `make_decision` — the source issues two, and the underlying similarity
search may answer them differently; `runChain` is `decision_chain.run` on the
rendered prompt; `jsonLoads` is Python's `json.loads` on a `\x7b...\x7d`
span; `parseQuery` is the `parse_insurance_query` call plus the five
`.get(..., "Unknown")` reads of lines 66-74, used only when no patient data
was passed in. -/
structure DecisionEnv where
  retrieveClauses : Nat → ExtCall (List String)
  runChain : String → ExtCall String
  jsonLoads : String → ExtCall PyDict
  parseQuery : String → ExtCall PatientData

/-- The in-`try` fallback dict used when no JSON object is found in the
generation output (src/decision_engine.py lines 96-103). -/
def fallbackDecisionData : PyDict :=
  [("decision", .jstr "REJECTED"), ("amount", .jnull),
   ("justification", .jstr "Unable to process claim - insufficient policy information"),
   ("risk_factors", .jarr [.jstr "Processing error"]),
   ("coverage_status", .jstr "none")]

/-- The `except` branch dict of `make_decision` (src/decision_engine.py
lines 111-122): it embeds `str(e)` into the justification and an `error`
key, and uses `patient_data or \x7b\x7d` for the snapshot. -/
def errorDecision (e : String) (pd : Option PatientData) (query : String) :
    PyDict :=
  [("decision", .jstr "REJECTED"), ("amount", .jnull),
   ("justification", .jstr ("System error: " ++ e)),
   ("risk_factors", .jarr [.jstr "System error"]),
   ("coverage_status", .jstr "none"),
   ("patient_details", (pd.map encodePatient).getD (.jobj [])),
   ("query", .jstr query),
   ("error", .jstr e)]

/-- Tag an exception with the patient data bound at the moment it is raised,
as the `except` branch reads the current `patient_data` local. -/
def withPd (pd : Option PatientData) : ExtCall α →
    Except (String × Option PatientData) α
  | .ok a => .ok a
  | .error e => .error (e, pd)

/-- The `try` body of `make_decision` (src/decision_engine.py lines 65-109):
parse the query when no patient data was given, retrieve clauses, run the
decision chain on the rendered prompt, take the first JSON object of the
output (or the fixed fallback), then attach `patient_details`, `query` and
`clauses_count` — the count from a second `retrieve_clauses(query)` call. -/
def make_decision_aux (env : DecisionEnv) (query : String)
    (patient_data : Option PatientData) :
    Except (String × Option PatientData) PyDict := do
  let pd ← match patient_data with
    | some p => Except.ok p
    | none => withPd none (env.parseQuery query)
  let clauses ← withPd (some pd) (env.retrieveClauses 0)
  let clauses_text := String.intercalate "\n\n" clauses
  let decision_result ← withPd (some pd) (env.runChain
    (decisionPromptText clauses_text pd.age pd.gender pd.procedure
      pd.location pd.duration))
  let decision_data ← match findJsonSpan decision_result with
    | some jtext => withPd (some pd) (env.jsonLoads jtext)
    | none => Except.ok fallbackDecisionData
  let d1 := dictSet decision_data "patient_details" (encodePatient pd)
  let d2 := dictSet d1 "query" (.jstr query)
  let clauses2 ← withPd (some pd) (env.retrieveClauses 1)
  Except.ok (dictSet d2 "clauses_count" (.jnum clauses2.length))

/-- Embedding of `InsuranceDecisionEngine.make_decision` (src/decision_engine.py
lines 61-122): the `try` body with every exception caught by the `except`
branch; it always returns a dict. -/
def make_decision (env : DecisionEnv) (query : String)
    (patient_data : Option PatientData) : PyDict :=
  match make_decision_aux env query patient_data with
  | .ok d => d
  | .error (e, pd) => errorDecision e pd query

/-- Pad a three-digit thousands group with leading zeros. -/
def pad3 (m : Nat) : String :=
  if m < 10 then "00" ++ toString m
  else if m < 100 then "0" ++ toString m
  else toString m

/-- A natural number with thousands separators, as Python's `format(n, ",")`
renders it. -/
def commaNat (n : Nat) : String :=
  if _h : n < 1000 then toString n
  else commaNat (n / 1000) ++ "," ++ pad3 (n % 1000)
decreasing_by exact Nat.div_lt_self (by omega) (by omega)

/-- An integer with thousands separators. -/
def formatInt (n : Int) : String :=
  if n < 0 then "-" ++ commaNat n.natAbs else commaNat n.natAbs

/-- Python's f-string conversion `\x7bv:,\x7d`: thousands formatting is
defined for numbers (and bools, as `int` subclasses), while `None`, strings
and containers raise. -/
def pyFormatThousands : JValue → ExtCall String
  | .jnum n => .ok (formatInt n)
  | .jbool b => .ok (if b then "1" else "0")
  | .jnull => .error "TypeError: unsupported format string passed to NoneType.__format__"
  | .jstr _ => .error "ValueError: Cannot specify a comma with s"
  | .jarr _ => .error "TypeError: unsupported format string passed to list.__format__"
  | .jobj _ => .error "TypeError: unsupported format string passed to dict.__format__"

mutual

/-- Python `str()` of a JSON value, as the summary f-string interpolates it. -/
def pyStr : JValue → String
  | .jnull => "None"
  | .jbool b => if b then "True" else "False"
  | .jnum n => toString n
  | .jstr s => s
  | .jarr xs => "[" ++ String.intercalate ", " (pyReprList xs) ++ "]"
  | .jobj fs => "\x7b" ++ String.intercalate ", " (pyReprObj fs) ++ "\x7d"

/-- Python `repr()`, used for elements inside containers. -/
def pyRepr : JValue → String
  | .jnull => "None"
  | .jbool b => if b then "True" else "False"
  | .jnum n => toString n
  | .jstr s => "\x27" ++ s ++ "\x27"
  | .jarr xs => "[" ++ String.intercalate ", " (pyReprList xs) ++ "]"
  | .jobj fs => "\x7b" ++ String.intercalate ", " (pyReprObj fs) ++ "\x7d"

/-- Python `repr()` of each element of a list. -/
def pyReprList : List JValue → List String
  | [] => []
  | x :: xs => pyRepr x :: pyReprList xs

/-- Python `repr()` of each key/value pair of a dict. -/
def pyReprObj : List (String × JValue) → List String
  | [] => []
  | (k, v) :: fs => ("\x27" ++ k ++ "\x27: " ++ pyRepr v) :: pyReprObj fs

end

/-- Embedding of `InsuranceDecisionEngine.get_decision_summary` (src/decision_engine.py
lines 132-137): the APPROVED branch interpolates `decision["amount"]` with a
thousands format specifier unconditionally. -/
def get_decision_summary (decision : PyDict) : ExtCall String := do
  let d ← pyGetItem decision "decision"
  let approved : Bool := match d with | .jstr s => s == "APPROVED" | _ => false
  if approved then do
    let amount ← pyGetItem decision "amount"
    let amount_text ← pyFormatThousands amount
    let j ← pyGetItem decision "justification"
    .ok ("✅ CLAIM APPROVED - Amount: ₹" ++ amount_text ++ " | " ++ pyStr j)
  else do
    let j ← pyGetItem decision "justification"
    .ok ("❌ CLAIM REJECTED - " ++ pyStr j)

end DecisionEngine

/-- One document returned by the similarity search. Only `page_content` is
ever read by the repository (projection, dedup key, context building), so
that is the one field carried. -/
structure Doc where
  page_content : String
deriving DecidableEq

namespace Retriever

/-- Embedding of `retrieve_clauses` (src/retriever.py lines 48-51): fetch the relevant
documents and project their text. There is no exception handling here, so an
index failure propagates. `getRelevantDocuments` is the external
`retriever.get_relevant_documents` call. -/
def retrieve_clauses (getRelevantDocuments : String → ExtCall (List Doc))
    (query : String) : ExtCall (List String) := do
  let relevant_docs ← getRelevantDocuments query
  .ok (relevant_docs.map Doc.page_content)

/-- Embedding of `query_rag_system` (src/retriever.py lines 53-60): the full RAG chain
guarded by `try/except`, degrading any failure to a fixed apology string — a
prose answer, not a clause list. `ragChainAnswer` is
`rag_chain.invoke(...)["answer"]`. -/
def query_rag_system (ragChainAnswer : String → ExtCall String)
    (query : String) : String :=
  match ragChainAnswer query with
  | .ok answer => answer
  | .error _ => "Sorry, I couldn\x27t process your query. Please try again."

end Retriever

namespace Main

/-- First-seen dedup of docs keyed on `page_content`: models
`list(\x7bdoc.page_content: doc for doc in all_results\x7d.values())`. A
CPython dict keeps each key at its first-insertion position and overwrites
the stored value; with only `page_content` carried, two docs of equal
content are equal, so the first-kept doc below coincides with the
last-written one. -/
def dedupByContent (seen : List String) : List Doc → List Doc
  | [] => []
  | d :: ds =>
    if d.page_content ∈ seen then dedupByContent seen ds
    else d :: dedupByContent (d.page_content :: seen) ds

/-- The loop of src/main.py lines 132-134: one `query_vectorstore(term, k=2)`
call per phrase, results extended onto the accumulator in call order; an
exception mid-loop aborts the whole function. -/
def collectResults (query_vectorstore : String → Nat → ExtCall (List Doc)) :
    List String → ExtCall (List Doc)
  | [] => .ok []
  | t :: ts => do
    let results ← query_vectorstore t 2
    let rest ← collectResults query_vectorstore ts
    .ok (results ++ rest)

/-- The retrieval section of `query_rag_system` (src/main.py lines 131-137)
for a given list of enhanced search phrases: each of the first three phrases
is queried with a per-phrase limit of 2, results are merged in call order,
deduplicated by content and truncated to 5. -/
def retrievalPhase (query_vectorstore : String → Nat → ExtCall (List Doc))
    (search_terms : List String) : ExtCall (List Doc) := do
  let all_results ← collectResults query_vectorstore (search_terms.take 3)
  .ok ((dedupByContent [] all_results).take 5)

/-- Each search phrase is used as the query text of a vector-store call; a
non-string phrase would fail inside the external embedding call (the parser
produces strings). -/
def asStringList : List JValue → ExtCall (List String)
  | [] => .ok []
  | .jstr s :: xs => do
    let rest ← asStringList xs
    .ok (s :: rest)
  | _ => .error "TypeError: expected a string phrase"

/-- Embedding of `query_rag_system` (src/main.py lines 126-144): parse the question, read
`enhanced_search_phrases`, run the retrieval section, build the context
string — and then `return answer`, a name never bound in the module, so
every run that reaches the return ends in `NameError`. -/
def query_rag_system (parseInsuranceQuery : String → ExtCall PyDict)
    (query_vectorstore : String → Nat → ExtCall (List Doc))
    (question : String) : ExtCall String := do
  let parsed_query ← parseInsuranceQuery question
  let st ← pyGetItem parsed_query "enhanced_search_phrases"
  let search_terms ← match st with
    | .jarr xs => asStringList xs
    | _ => .error "TypeError: not iterable"
  let unique_docs ← retrievalPhase query_vectorstore search_terms
  let _context := String.intercalate "\n" (unique_docs.map Doc.page_content)
  .error "NameError: name \x27answer\x27 is not defined"

end Main

namespace Main

/-- Modelled from the spec for the refinement comparison of the retrieval
section: deduplication of clause contents by exact equality, keeping each
content at its first-seen position. -/
def specDedupFirstSeen (seen : List String) : List String → List String
  | [] => []
  | c :: cs =>
    if c ∈ seen then specDedupFirstSeen seen cs
    else c :: specDedupFirstSeen (c :: seen) cs

/-- Concrete vector-store stub: phrase "p1" yields contents A, B and any
other phrase yields B, C. -/
def qvTwoPhrases : String → Nat → ExtCall (List Doc) := fun p _ =>
  if p = "p1" then .ok [⟨"A"⟩, ⟨"B"⟩] else .ok [⟨"B"⟩, ⟨"C"⟩]

/-- Concrete vector-store stub for an unreachable index: every call raises. -/
def qvUnreachable : String → Nat → ExtCall (List Doc) := fun _ _ =>
  .error "ConnectionError: vector index unreachable"

/-- The per-phrase results of `qvTwoPhrases`, as a pure function. -/
def resTwoPhrases : String → List Doc := fun p =>
  if p = "p1" then [⟨"A"⟩, ⟨"B"⟩] else [⟨"B"⟩, ⟨"C"⟩]

end Main

namespace Retriever

/-- Concrete `get_relevant_documents` stub for an unreachable index. -/
def gdUnreachable : String → ExtCall (List Doc) := fun _ =>
  .error "ConnectionError: vector index unreachable"

end Retriever

namespace DecisionEngine

/-- Raw generation output proposing approval, exactly one JSON object. -/
def rawApproved : String :=
  "\x7b\"decision\": \"APPROVED\", \"amount\": 50000, \"justification\": \"ok\", \"risk_factors\": [], \"coverage_status\": \"full\"\x7d"

/-- What `json.loads` yields on `rawApproved`. -/
def ddApproved : PyDict :=
  [("decision", .jstr "APPROVED"), ("amount", .jnum 50000),
   ("justification", .jstr "ok"), ("risk_factors", .jarr []),
   ("coverage_status", .jstr "full")]

/-- Patient data of a non-emergency knee replacement under a 3-month-old
policy (the hard-rule configuration of the spec's override test). -/
def pdKnee : PatientData := ⟨"46", "M", "knee replacement", "Pune", "3"⟩

/-- The query text of the knee-replacement test case. -/
def qKnee : String :=
  "46-year-old male needs knee replacement in Pune with 3 months policy duration"

/-- Environment whose text generation proposes APPROVED for the knee query:
retrieval finds one clause, the chain answers `rawApproved`, and `json.loads`
parses it to `ddApproved`. -/
def envApproveKnee : DecisionEnv where
  retrieveClauses := fun _ => .ok ["Surgeries are covered subject to waiting periods."]
  runChain := fun _ => .ok rawApproved
  jsonLoads := fun s => if s = rawApproved then .ok ddApproved else .error "ValueError"
  parseQuery := fun _ => .error "not used"

/-- Environment whose decision chain raises with an internal detail in the
exception message. -/
def envChainDown : DecisionEnv where
  retrieveClauses := fun _ => .ok []
  runChain := fun _ => .error "ReadTimeout: db=10.0.0.7 credentials rejected"
  jsonLoads := fun _ => .error "not reached"
  parseQuery := fun _ => .error "not used"

/-- Raw generation output pairing APPROVED with coverage `none` — a
syntactically valid response that violates the spec's decision invariant. -/
def rawContradictory : String :=
  "\x7b\"decision\": \"APPROVED\", \"amount\": 50000, \"justification\": \"ok\", \"risk_factors\": [], \"coverage_status\": \"none\"\x7d"

/-- What `json.loads` yields on `rawContradictory`. -/
def ddContradictory : PyDict :=
  [("decision", .jstr "APPROVED"), ("amount", .jnum 50000),
   ("justification", .jstr "ok"), ("risk_factors", .jarr []),
   ("coverage_status", .jstr "none")]

/-- Environment whose generated decision violates the invariant. -/
def envContradictory : DecisionEnv where
  retrieveClauses := fun _ => .ok []
  runChain := fun _ => .ok rawContradictory
  jsonLoads := fun s => if s = rawContradictory then .ok ddContradictory else .error "ValueError"
  parseQuery := fun _ => .error "not used"

/-- Environment whose similarity search answers the two `retrieve_clauses`
calls of one decision differently: two clauses on the first call, one on the
second. The chain only answers when its prompt embeds exactly the two
first-call clauses, so a successful run certifies what the prompt held. -/
def envRecount : DecisionEnv where
  retrieveClauses := fun i => if i = 0 then .ok ["clause A", "clause B"] else .ok ["clause A"]
  runChain := fun p =>
    if p = decisionPromptText "clause A\n\nclause B" "46" "M" "knee replacement" "Pune" "3"
    then .ok rawApproved else .error "unexpected prompt"
  jsonLoads := fun s => if s = rawApproved then .ok ddApproved else .error "ValueError"
  parseQuery := fun _ => .error "not used"

/-- A decision dict the data model permits — APPROVED with a null amount —
fed to the summary generator. -/
def approvedNullAmount : PyDict :=
  [("decision", .jstr "APPROVED"), ("amount", .jnull),
   ("justification", .jstr "approved per clause 4.2"),
   ("risk_factors", .jarr []), ("coverage_status", .jstr "full")]

end DecisionEngine

namespace QueryParser

/-- Environment whose structuring call times out. -/
def envTimeout : ParserEnv where
  structureRun := fun _ => .error "ReadTimeout"
  jsonLoads := fun _ => .error "not reached"
  enhanceRun := fun _ _ => .error "ReadTimeout"

/-- Raw structuring output whose JSON object carries an out-of-enum
`query_type`. -/
def rawBanana : String := "\x7b\"query_type\": \"banana\", \"keywords\": [\"k1\"]\x7d"

/-- What `json.loads` yields on `rawBanana`. -/
def ddBanana : PyDict :=
  [("query_type", .jstr "banana"), ("keywords", .jarr [.jstr "k1"])]

/-- Environment whose structuring call returns `rawBanana`. -/
def envBanana : ParserEnv where
  structureRun := fun _ => .ok rawBanana
  jsonLoads := fun s => if s = rawBanana then .ok ddBanana else .error "ValueError"
  enhanceRun := fun _ _ => .ok "alternative phrase"

/-- A parsed query with an empty (but present) keywords list. -/
def pqEmptyKeywords : PyDict :=
  [("original_query", .jstr "my query"), ("keywords", .jarr [])]

/-- Environment whose enhancement call fails. -/
def envEnhanceDown : ParserEnv where
  structureRun := fun _ => .error "not used"
  jsonLoads := fun _ => .error "not used"
  enhanceRun := fun _ _ => .error "ReadTimeout"

/-- A parsed query with one keyword. -/
def pqOneKeyword : PyDict :=
  [("original_query", .jstr "q0"), ("keywords", .jarr [.jstr "k1"])]

end QueryParser

theorem dictGet_dictSet_same (d : PyDict) (k : String) (v : JValue) :
    dictGet (dictSet d k v) k = some v := by
  induction d with
  | nil => simp [dictGet, dictSet]
  | cons hd tl ih =>
    obtain ⟨k', v'⟩ := hd
    by_cases h : k' = k <;> simp [dictGet, dictSet, h, ih]

theorem dictGet_dictSet_ne (d : PyDict) (k k' : String) (v : JValue)
    (h : k' ≠ k) : dictGet (dictSet d k v) k' = dictGet d k' := by
  induction d with
  | nil => simp [dictGet, dictSet, h.symm]
  | cons hd tl ih =>
    obtain ⟨k₀, v₀⟩ := hd
    by_cases h₀ : k₀ = k <;> by_cases h₁ : k₀ = k' <;>
      simp_all [dictGet, dictSet]

namespace QueryParser

theorem parse_query_run_error (env : ParserEnv) (query e : String)
    (h : env.structureRun query = .error e) :
    parse_query env query = parserErrorFallback query := by
  simp [parse_query, h, bind, Except.bind]

theorem parse_query_nomatch (env : ParserEnv) (query raw : String)
    (h1 : env.structureRun query = .ok raw)
    (h2 : findJsonSpan raw = none) :
    parse_query env query =
      dictSet (parserFallback query) "original_query" (.jstr query) := by
  simp [parse_query, h1, h2, bind, Except.bind]

theorem parse_query_loads_error (env : ParserEnv) (query raw jtext e : String)
    (h1 : env.structureRun query = .ok raw)
    (h2 : findJsonSpan raw = some jtext)
    (h3 : env.jsonLoads jtext = .error e) :
    parse_query env query = parserErrorFallback query := by
  simp [parse_query, h1, h2, h3, bind, Except.bind]

theorem parse_query_parsed (env : ParserEnv) (query raw jtext : String)
    (dd : PyDict)
    (h1 : env.structureRun query = .ok raw)
    (h2 : findJsonSpan raw = some jtext)
    (h3 : env.jsonLoads jtext = .ok dd) :
    parse_query env query = dictSet dd "original_query" (.jstr query) := by
  simp [parse_query, h1, h2, h3, bind, Except.bind]

theorem pyEqScalar_jstr_iff (s : String) (y : JValue) :
    pyEqScalar (.jstr s) y = true ↔ y = .jstr s := by
  cases y <;> simp [pyEqScalar, eq_comm]

theorem pySetList_map_jstr (ss : List String) :
    ∀ seen : List JValue,
      ∃ r, pySetList seen (ss.map JValue.jstr) = .ok r ∧
        ∀ s ∈ ss, JValue.jstr s ∈ r ∨ JValue.jstr s ∈ seen := by
  induction ss with
  | nil => intro seen; exact ⟨[], rfl, by simp⟩
  | cons s ss ih =>
    intro seen
    by_cases hmem : seen.any (pyEqScalar (.jstr s)) = true
    · obtain ⟨r, hr, hms⟩ := ih seen
      refine ⟨r, ?_, ?_⟩
      · simp [pySetList, hashable, hmem, hr]
      · intro t ht
        rcases List.mem_cons.mp ht with h | h
        · subst h
          right
          obtain ⟨y, hy, hey⟩ := List.any_eq_true.mp hmem
          rwa [(pyEqScalar_jstr_iff _ y).mp hey] at hy
        · exact hms t h
    · obtain ⟨r, hr, hms⟩ := ih (JValue.jstr s :: seen)
      refine ⟨JValue.jstr s :: r, ?_, ?_⟩
      · simp [pySetList, hashable, hmem, hr, bind, Except.bind]
      · intro t ht
        rcases List.mem_cons.mp ht with h | h
        · subst h; left; exact List.mem_cons_self _ _
        · rcases hms t h with h2 | h2
          · left; exact List.mem_cons_of_mem _ h2
          · rcases List.mem_cons.mp h2 with h3 | h3
            · left; rw [h3]; exact List.mem_cons_self _ _
            · right; exact h3

/-- C6: for every input query string, when the external text-generation call
during extraction fails in any way — the call raises, its output contains no
JSON object, or `json.loads` raises on the extracted span — `parse_query`
returns the fallback structured query: all typed fields null, `query_type` =
"general", `keywords` = `[query]`, with `original_query` set. It never
raises: the embedding returns a `PyDict` outright, mirroring the
`try/except` that catches every exception. -/
theorem extraction_failure_yields_fallback (env : ParserEnv) (query : String)
    (h : (∃ e, env.structureRun query = .error e)
      ∨ (∃ raw, env.structureRun query = .ok raw ∧ findJsonSpan raw = none)
      ∨ (∃ raw jtext e, env.structureRun query = .ok raw ∧
          findJsonSpan raw = some jtext ∧ env.jsonLoads jtext = .error e)) :
    dictGet (parse_query env query) "original_query" = some (.jstr query) ∧
    dictGet (parse_query env query) "age" = some .jnull ∧
    dictGet (parse_query env query) "gender" = some .jnull ∧
    dictGet (parse_query env query) "procedure" = some .jnull ∧
    dictGet (parse_query env query) "location" = some .jnull ∧
    dictGet (parse_query env query) "policy_duration_months" = some .jnull ∧
    dictGet (parse_query env query) "query_type" = some (.jstr "general") ∧
    dictGet (parse_query env query) "keywords" = some (.jarr [.jstr query]) := by
  rcases h with ⟨e, he⟩ | ⟨raw, hra, hno⟩ | ⟨raw, jt, e, hra, hsp, hl⟩
  · rw [parse_query_run_error env query e he]
    exact ⟨rfl, rfl, rfl, rfl, rfl, rfl, rfl, rfl⟩
  · rw [parse_query_nomatch env query raw hra hno]
    exact ⟨rfl, rfl, rfl, rfl, rfl, rfl, rfl, rfl⟩
  · rw [parse_query_loads_error env query raw jt e hra hsp hl]
    exact ⟨rfl, rfl, rfl, rfl, rfl, rfl, rfl, rfl⟩

/-- C6 witness: the fallback fields at a concrete timed-out environment. -/
theorem extraction_failure_yields_fallback_witness :
    dictGet (parse_query envTimeout "is dental covered") "original_query"
        = some (.jstr "is dental covered") ∧
    dictGet (parse_query envTimeout "is dental covered") "age" = some .jnull ∧
    dictGet (parse_query envTimeout "is dental covered") "gender" = some .jnull ∧
    dictGet (parse_query envTimeout "is dental covered") "procedure" = some .jnull ∧
    dictGet (parse_query envTimeout "is dental covered") "location" = some .jnull ∧
    dictGet (parse_query envTimeout "is dental covered") "policy_duration_months"
        = some .jnull ∧
    dictGet (parse_query envTimeout "is dental covered") "query_type"
        = some (.jstr "general") ∧
    dictGet (parse_query envTimeout "is dental covered") "keywords"
        = some (.jarr [.jstr "is dental covered"]) :=
  extraction_failure_yields_fallback envTimeout "is dental covered"
    (Or.inl ⟨"ReadTimeout", rfl⟩)

/-- C7 counterexample: when the generated JSON carries `query_type` =
"banana", `parse_query` returns it unvalidated — the result's `query_type`
is none of the five enum values, refuting the claim that it always is. -/
theorem query_type_unvalidated_cex :
    dictGet (parse_query envBanana "are bananas covered") "query_type"
        = some (.jstr "banana") ∧
    ¬ (dictGet (parse_query envBanana "are bananas covered") "query_type"
          = some (.jstr "coverage")
      ∨ dictGet (parse_query envBanana "are bananas covered") "query_type"
          = some (.jstr "exclusion")
      ∨ dictGet (parse_query envBanana "are bananas covered") "query_type"
          = some (.jstr "claim")
      ∨ dictGet (parse_query envBanana "are bananas covered") "query_type"
          = some (.jstr "premium")
      ∨ dictGet (parse_query envBanana "are bananas covered") "query_type"
          = some (.jstr "general")) := by
  refine ⟨rfl, ?_⟩
  intro h
  rcases h with h | h | h | h | h <;>
    (rw [show dictGet (parse_query envBanana "are bananas covered") "query_type"
        = some (.jstr "banana") from rfl] at h; simp at h)

/-- C7 (amended): `query_type` is "general" on every fallback path, but on a
successful parse it is copied from the generated JSON without validation, so
it may be absent or carry an out-of-enum value. -/
theorem query_type_general_or_passthrough :
    (∀ (env : ParserEnv) (query : String),
      ((∃ e, env.structureRun query = .error e)
        ∨ (∃ raw, env.structureRun query = .ok raw ∧ findJsonSpan raw = none)
        ∨ (∃ raw jtext e, env.structureRun query = .ok raw ∧
            findJsonSpan raw = some jtext ∧ env.jsonLoads jtext = .error e)) →
      dictGet (parse_query env query) "query_type" = some (.jstr "general"))
    ∧ (∀ (env : ParserEnv) (query raw jtext : String) (dd : PyDict),
      env.structureRun query = .ok raw → findJsonSpan raw = some jtext →
      env.jsonLoads jtext = .ok dd →
      dictGet (parse_query env query) "query_type" = dictGet dd "query_type") := by
  constructor
  · intro env query h
    rcases h with ⟨e, he⟩ | ⟨raw, hra, hno⟩ | ⟨raw, jt, e, hra, hsp, hl⟩
    · rw [parse_query_run_error env query e he]; rfl
    · rw [parse_query_nomatch env query raw hra hno]; rfl
    · rw [parse_query_loads_error env query raw jt e hra hsp hl]; rfl
  · intro env query raw jtext dd h1 h2 h3
    rw [parse_query_parsed env query raw jtext dd h1 h2 h3]
    exact dictGet_dictSet_ne _ _ _ _ (by decide)

/-- C7 witness: passthrough at the concrete out-of-enum environment. -/
theorem query_type_general_or_passthrough_witness :
    dictGet (parse_query envBanana "are bananas covered") "query_type"
      = dictGet ddBanana "query_type" :=
  query_type_general_or_passthrough.2 envBanana "are bananas covered"
    rawBanana rawBanana ddBanana rfl rfl rfl

/-- C8 counterexample: with `keywords` present but empty and a failing
enhancement call, `enhance_for_retrieval` returns the empty list — not the
non-empty set the claim requires, and not `[originalQuery]` as the claim
says the empty-keywords error case yields. -/
theorem expand_empty_result_cex :
    enhance_for_retrieval envEnhanceDown pqEmptyKeywords = .ok (.jarr []) ∧
    ¬ enhance_for_retrieval envEnhanceDown pqEmptyKeywords
        = .ok (.jarr [.jstr "my query"]) := by
  refine ⟨rfl, ?_⟩
  intro h
  rw [show enhance_for_retrieval envEnhanceDown pqEmptyKeywords
      = .ok (.jarr []) from rfl] at h
  simp at h

/-- C8 (amended): for a parsed query whose `original_query` is present and
whose `keywords` is a list of strings, `expand` never raises and its result
contains every keyword; on an enhancement failure it returns exactly the
keywords value — which is empty when `keywords` is empty, and is
`[originalQuery]` only when the `keywords` key is absent — so the result is
not in general non-empty. -/
theorem expand_contains_keywords (env : ParserEnv) (pq : PyDict)
    (oq : String) (ks : List String)
    (h1 : dictGet pq "original_query" = some (.jstr oq))
    (h2 : dictGet pq "keywords" = some (.jarr (ks.map JValue.jstr))) :
    (∃ r, enhance_for_retrieval env pq = .ok (.jarr r) ∧
      ∀ k ∈ ks, JValue.jstr k ∈ r)
    ∧ (∀ e, env.enhanceRun (.jstr oq) pq = .error e →
        enhance_for_retrieval env pq = .ok (.jarr (ks.map JValue.jstr))) := by
  constructor
  · cases hrun : env.enhanceRun (.jstr oq) pq with
    | error e =>
      refine ⟨ks.map JValue.jstr, ?_, ?_⟩
      · simp [enhance_for_retrieval, pyGetItem, h1, h2, hrun, bind, Except.bind]
      · intro k hk; exact List.mem_map_of_mem _ hk
    | ok raw =>
      obtain ⟨r, hr, hmem⟩ := pySetList_map_jstr
        (ks ++ ((raw.splitOn "\n").map String.trim).filter (fun p => p ≠ "")) []
      rw [List.map_append] at hr
      simp only [ne_eq, decide_not] at hr
      refine ⟨r, ?_, ?_⟩
      · simp [enhance_for_retrieval, pyGetItem, h1, h2, hrun, asPyList, hr,
          bind, Except.bind]
      · intro k hk
        rcases hmem k (List.mem_append_left _ hk) with h | h
        · exact h
        · simp at h
  · intro e hrun
    simp [enhance_for_retrieval, pyGetItem, h1, h2, hrun, bind, Except.bind]

/-- C8 witness: the error branch at a concrete one-keyword query. -/
theorem expand_contains_keywords_witness :
    enhance_for_retrieval envEnhanceDown pqOneKeyword
      = .ok (.jarr [.jstr "k1"]) :=
  (expand_contains_keywords envEnhanceDown pqOneKeyword "q0" ["k1"]
    rfl rfl).2 "ReadTimeout" rfl

end QueryParser

namespace DecisionEngine

theorem make_decision_parsed_path (env : DecisionEnv) (query : String)
    (pd : PatientData) (clauses clauses2 : List String) (raw jtext : String)
    (dd : PyDict)
    (h1 : env.retrieveClauses 0 = .ok clauses)
    (h2 : env.runChain (decisionPromptText (String.intercalate "\n\n" clauses)
        pd.age pd.gender pd.procedure pd.location pd.duration) = .ok raw)
    (h3 : findJsonSpan raw = some jtext)
    (h4 : env.jsonLoads jtext = .ok dd)
    (h5 : env.retrieveClauses 1 = .ok clauses2) :
    make_decision env query (some pd) =
      dictSet (dictSet (dictSet dd "patient_details" (encodePatient pd))
        "query" (.jstr query)) "clauses_count" (.jnum clauses2.length) := by
  simp [make_decision, make_decision_aux, withPd, h1, h2, h3, h4, h5, bind,
    Except.bind]

theorem make_decision_nomatch_path (env : DecisionEnv) (query : String)
    (pd : PatientData) (clauses clauses2 : List String) (raw : String)
    (h1 : env.retrieveClauses 0 = .ok clauses)
    (h2 : env.runChain (decisionPromptText (String.intercalate "\n\n" clauses)
        pd.age pd.gender pd.procedure pd.location pd.duration) = .ok raw)
    (h3 : findJsonSpan raw = none)
    (h5 : env.retrieveClauses 1 = .ok clauses2) :
    make_decision env query (some pd) =
      dictSet (dictSet (dictSet fallbackDecisionData "patient_details"
        (encodePatient pd)) "query" (.jstr query)) "clauses_count"
        (.jnum clauses2.length) := by
  simp [make_decision, make_decision_aux, withPd, h1, h2, h3, h5, bind,
    Except.bind]

theorem make_decision_chain_error (env : DecisionEnv) (query : String)
    (pd : PatientData) (clauses : List String) (e : String)
    (h1 : env.retrieveClauses 0 = .ok clauses)
    (h2 : env.runChain (decisionPromptText (String.intercalate "\n\n" clauses)
        pd.age pd.gender pd.procedure pd.location pd.duration) = .error e) :
    make_decision env query (some pd) = errorDecision e (some pd) query := by
  simp [make_decision, make_decision_aux, withPd, h1, h2, bind, Except.bind]

theorem make_decision_loads_error (env : DecisionEnv) (query : String)
    (pd : PatientData) (clauses : List String) (raw jtext e : String)
    (h1 : env.retrieveClauses 0 = .ok clauses)
    (h2 : env.runChain (decisionPromptText (String.intercalate "\n\n" clauses)
        pd.age pd.gender pd.procedure pd.location pd.duration) = .ok raw)
    (h3 : findJsonSpan raw = some jtext)
    (h4 : env.jsonLoads jtext = .error e) :
    make_decision env query (some pd) = errorDecision e (some pd) query := by
  simp [make_decision, make_decision_aux, withPd, h1, h2, h3, h4, bind,
    Except.bind]

theorem make_decision_aux_error (env : DecisionEnv) (query : String)
    (pd0 : Option PatientData) (e : String) (pdX : Option PatientData)
    (h : make_decision_aux env query pd0 = .error (e, pdX)) :
    make_decision env query pd0 = errorDecision e pdX query := by
  simp [make_decision, h]

/-- C1 counterexample: with the knee-replacement patient under a 3-month
policy and no emergency flag, an environment whose text generation proposes
APPROVED makes `make_decision` return APPROVED — there is no hard-rule
override, refuting the claim that the outcome is REJECTED with coverage
`none` regardless of the generated output. -/
theorem knee_rule_not_enforced_cex :
    dictGet (make_decision envApproveKnee qKnee (some pdKnee)) "decision"
        = some (.jstr "APPROVED") ∧
    ¬ (dictGet (make_decision envApproveKnee qKnee (some pdKnee)) "decision"
          = some (.jstr "REJECTED") ∧
       dictGet (make_decision envApproveKnee qKnee (some pdKnee)) "coverage_status"
          = some (.jstr "none")) := by
  refine ⟨rfl, ?_⟩
  intro h
  have hd := h.1
  rw [show dictGet (make_decision envApproveKnee qKnee (some pdKnee)) "decision"
      = some (.jstr "APPROVED") from rfl] at hd
  simp at hd

/-- C1 (amended): the decision rules are conveyed to the external
text-generation call only through the prompt; on a successful parse
`make_decision` returns the generated `decision` and `coverage_status`
unchanged (only the metadata keys `patient_details`, `query` and
`clauses_count` are added) — in particular, for a non-emergency knee
replacement under a 3-month policy whose generated output proposes APPROVED,
the returned outcome is APPROVED. -/
theorem knee_rule_passthrough (env : DecisionEnv) (query : String)
    (pd : PatientData) (clauses clauses2 : List String) (raw jtext : String)
    (dd : PyDict)
    (hproc : pd.procedure = "knee replacement")
    (hdur : pd.duration = "3")
    (h1 : env.retrieveClauses 0 = .ok clauses)
    (h2 : env.runChain (decisionPromptText (String.intercalate "\n\n" clauses)
        pd.age pd.gender pd.procedure pd.location pd.duration) = .ok raw)
    (h3 : findJsonSpan raw = some jtext)
    (h4 : env.jsonLoads jtext = .ok dd)
    (h5 : env.retrieveClauses 1 = .ok clauses2) :
    dictGet (make_decision env query (some pd)) "decision"
        = dictGet dd "decision" ∧
    dictGet (make_decision env query (some pd)) "coverage_status"
        = dictGet dd "coverage_status" := by
  rw [make_decision_parsed_path env query pd clauses clauses2 raw jtext dd
    h1 h2 h3 h4 h5]
  constructor
  · rw [dictGet_dictSet_ne _ _ _ _ (by decide),
      dictGet_dictSet_ne _ _ _ _ (by decide),
      dictGet_dictSet_ne _ _ _ _ (by decide)]
  · rw [dictGet_dictSet_ne _ _ _ _ (by decide),
      dictGet_dictSet_ne _ _ _ _ (by decide),
      dictGet_dictSet_ne _ _ _ _ (by decide)]

/-- C1 witness: the passthrough at the concrete approving environment. -/
theorem knee_rule_passthrough_witness :
    dictGet (make_decision envApproveKnee qKnee (some pdKnee)) "decision"
        = dictGet ddApproved "decision" ∧
    dictGet (make_decision envApproveKnee qKnee (some pdKnee)) "coverage_status"
        = dictGet ddApproved "coverage_status" :=
  knee_rule_passthrough envApproveKnee qKnee pdKnee
    ["Surgeries are covered subject to waiting periods."]
    ["Surgeries are covered subject to waiting periods."]
    rawApproved rawApproved ddApproved rfl rfl rfl rfl rfl rfl rfl

/-- C2 counterexample: when the decision chain raises with an internal
detail, the returned dict carries `riskFactors = ["System error"]` — not
`["processing error"]` — and its justification embeds the raw exception
text, refuting the claim's fixed fallback and its no-leak guarantee. -/
theorem decision_error_leaks_cex :
    dictGet (make_decision envChainDown "claim query" (some pdKnee)) "risk_factors"
        = some (.jarr [.jstr "System error"]) ∧
    dictGet (make_decision envChainDown "claim query" (some pdKnee)) "justification"
        = some (.jstr "System error: ReadTimeout: db=10.0.0.7 credentials rejected") ∧
    ¬ dictGet (make_decision envChainDown "claim query" (some pdKnee)) "risk_factors"
        = some (.jarr [.jstr "processing error"]) := by
  refine ⟨rfl, rfl, ?_⟩
  intro h
  rw [show dictGet (make_decision envChainDown "claim query" (some pdKnee))
      "risk_factors" = some (.jarr [.jstr "System error"]) from rfl] at h
  simp at h

/-- C2 (amended): `make_decision` never propagates an exception (the
embedding returns a dict outright), but the fallbacks differ by failure
mode: an output with no JSON object yields the deterministic fallback
(REJECTED, null amount, coverage `none`, the fixed
"insufficient policy information" justification,
`risk_factors = ["Processing error"]`), while an exception — the external
call raising, or `json.loads` failing — yields REJECTED, null amount,
coverage `none`, `risk_factors = ["System error"]` and a justification that
embeds the internal exception text, which is also exposed under an `error`
key. -/
theorem decision_failure_fallbacks :
    (∀ (env : DecisionEnv) (query : String) (pd : PatientData)
      (clauses clauses2 : List String) (raw : String),
      env.retrieveClauses 0 = .ok clauses →
      env.runChain (decisionPromptText (String.intercalate "\n\n" clauses)
        pd.age pd.gender pd.procedure pd.location pd.duration) = .ok raw →
      findJsonSpan raw = none →
      env.retrieveClauses 1 = .ok clauses2 →
      dictGet (make_decision env query (some pd)) "decision"
          = some (.jstr "REJECTED") ∧
      dictGet (make_decision env query (some pd)) "amount" = some .jnull ∧
      dictGet (make_decision env query (some pd)) "coverage_status"
          = some (.jstr "none") ∧
      dictGet (make_decision env query (some pd)) "justification"
          = some (.jstr "Unable to process claim - insufficient policy information") ∧
      dictGet (make_decision env query (some pd)) "risk_factors"
          = some (.jarr [.jstr "Processing error"]))
    ∧ (∀ (env : DecisionEnv) (query : String) (pd : PatientData)
      (clauses : List String) (e : String),
      env.retrieveClauses 0 = .ok clauses →
      env.runChain (decisionPromptText (String.intercalate "\n\n" clauses)
        pd.age pd.gender pd.procedure pd.location pd.duration) = .error e →
      dictGet (make_decision env query (some pd)) "decision"
          = some (.jstr "REJECTED") ∧
      dictGet (make_decision env query (some pd)) "amount" = some .jnull ∧
      dictGet (make_decision env query (some pd)) "coverage_status"
          = some (.jstr "none") ∧
      dictGet (make_decision env query (some pd)) "justification"
          = some (.jstr ("System error: " ++ e)) ∧
      dictGet (make_decision env query (some pd)) "risk_factors"
          = some (.jarr [.jstr "System error"]) ∧
      dictGet (make_decision env query (some pd)) "error" = some (.jstr e))
    ∧ (∀ (env : DecisionEnv) (query : String) (pd : PatientData)
      (clauses : List String) (raw jtext e : String),
      env.retrieveClauses 0 = .ok clauses →
      env.runChain (decisionPromptText (String.intercalate "\n\n" clauses)
        pd.age pd.gender pd.procedure pd.location pd.duration) = .ok raw →
      findJsonSpan raw = some jtext →
      env.jsonLoads jtext = .error e →
      dictGet (make_decision env query (some pd)) "decision"
          = some (.jstr "REJECTED") ∧
      dictGet (make_decision env query (some pd)) "justification"
          = some (.jstr ("System error: " ++ e)) ∧
      dictGet (make_decision env query (some pd)) "risk_factors"
          = some (.jarr [.jstr "System error"])) := by
  refine ⟨?_, ?_, ?_⟩
  · intro env query pd clauses clauses2 raw h1 h2 h3 h5
    rw [make_decision_nomatch_path env query pd clauses clauses2 raw h1 h2 h3 h5]
    refine ⟨?_, ?_, ?_, ?_, ?_⟩ <;>
      (rw [dictGet_dictSet_ne _ _ _ _ (by decide),
        dictGet_dictSet_ne _ _ _ _ (by decide),
        dictGet_dictSet_ne _ _ _ _ (by decide)]; rfl)
  · intro env query pd clauses e h1 h2
    rw [make_decision_chain_error env query pd clauses e h1 h2]
    exact ⟨rfl, rfl, rfl, rfl, rfl, rfl⟩
  · intro env query pd clauses raw jtext e h1 h2 h3 h4
    rw [make_decision_loads_error env query pd clauses raw jtext e h1 h2 h3 h4]
    exact ⟨rfl, rfl, rfl⟩

/-- C2 witness: the exception branch at the concrete failing chain. -/
theorem decision_failure_fallbacks_witness :
    dictGet (make_decision envChainDown "claim query" (some pdKnee)) "decision"
        = some (.jstr "REJECTED") ∧
    dictGet (make_decision envChainDown "claim query" (some pdKnee)) "amount"
        = some .jnull ∧
    dictGet (make_decision envChainDown "claim query" (some pdKnee)) "coverage_status"
        = some (.jstr "none") ∧
    dictGet (make_decision envChainDown "claim query" (some pdKnee)) "justification"
        = some (.jstr ("System error: " ++ "ReadTimeout: db=10.0.0.7 credentials rejected")) ∧
    dictGet (make_decision envChainDown "claim query" (some pdKnee)) "risk_factors"
        = some (.jarr [.jstr "System error"]) ∧
    dictGet (make_decision envChainDown "claim query" (some pdKnee)) "error"
        = some (.jstr "ReadTimeout: db=10.0.0.7 credentials rejected") :=
  decision_failure_fallbacks.2.1 envChainDown "claim query" pdKnee []
    "ReadTimeout: db=10.0.0.7 credentials rejected" rfl rfl

/-- C3 counterexample: a syntactically valid generated response pairing
APPROVED with coverage `none` is returned unchanged, so the data-model
invariant (`coverageStatus = none` implies REJECTED, APPROVED implies
full/partial coverage) does not hold for all external outputs. -/
theorem decision_invariant_violated_cex :
    dictGet (make_decision envContradictory "claim query" (some pdKnee)) "coverage_status"
        = some (.jstr "none") ∧
    dictGet (make_decision envContradictory "claim query" (some pdKnee)) "decision"
        = some (.jstr "APPROVED") ∧
    ¬ dictGet (make_decision envContradictory "claim query" (some pdKnee)) "decision"
        = some (.jstr "REJECTED") := by
  refine ⟨rfl, rfl, ?_⟩
  intro h
  rw [show dictGet (make_decision envContradictory "claim query" (some pdKnee))
      "decision" = some (.jstr "APPROVED") from rfl] at h
  simp at h

/-- C3 (amended): the invariant holds on every non-parsed path — whenever
the `try` body raises, and whenever the generated output contains no JSON
object, the returned decision is REJECTED with coverage `none` — but on a
successful parse the outcome and coverage fields are copied from the
generated JSON unchecked, so there the invariant holds only if the generated
output satisfies it. -/
theorem decision_invariant_conditional :
    (∀ (env : DecisionEnv) (query : String) (pd0 : Option PatientData)
      (e : String) (pdX : Option PatientData),
      make_decision_aux env query pd0 = .error (e, pdX) →
      dictGet (make_decision env query pd0) "decision" = some (.jstr "REJECTED") ∧
      dictGet (make_decision env query pd0) "coverage_status" = some (.jstr "none"))
    ∧ (∀ (env : DecisionEnv) (query : String) (pd : PatientData)
      (clauses clauses2 : List String) (raw : String),
      env.retrieveClauses 0 = .ok clauses →
      env.runChain (decisionPromptText (String.intercalate "\n\n" clauses)
        pd.age pd.gender pd.procedure pd.location pd.duration) = .ok raw →
      findJsonSpan raw = none →
      env.retrieveClauses 1 = .ok clauses2 →
      dictGet (make_decision env query (some pd)) "decision"
          = some (.jstr "REJECTED") ∧
      dictGet (make_decision env query (some pd)) "coverage_status"
          = some (.jstr "none"))
    ∧ (∀ (env : DecisionEnv) (query : String) (pd : PatientData)
      (clauses clauses2 : List String) (raw jtext : String) (dd : PyDict),
      env.retrieveClauses 0 = .ok clauses →
      env.runChain (decisionPromptText (String.intercalate "\n\n" clauses)
        pd.age pd.gender pd.procedure pd.location pd.duration) = .ok raw →
      findJsonSpan raw = some jtext →
      env.jsonLoads jtext = .ok dd →
      env.retrieveClauses 1 = .ok clauses2 →
      dictGet (make_decision env query (some pd)) "decision"
          = dictGet dd "decision" ∧
      dictGet (make_decision env query (some pd)) "coverage_status"
          = dictGet dd "coverage_status") := by
  refine ⟨?_, ?_, ?_⟩
  · intro env query pd0 e pdX h
    rw [make_decision_aux_error env query pd0 e pdX h]
    exact ⟨rfl, rfl⟩
  · intro env query pd clauses clauses2 raw h1 h2 h3 h5
    rw [make_decision_nomatch_path env query pd clauses clauses2 raw h1 h2 h3 h5]
    constructor <;>
      (rw [dictGet_dictSet_ne _ _ _ _ (by decide),
        dictGet_dictSet_ne _ _ _ _ (by decide),
        dictGet_dictSet_ne _ _ _ _ (by decide)]; rfl)
  · intro env query pd clauses clauses2 raw jtext dd h1 h2 h3 h4 h5
    rw [make_decision_parsed_path env query pd clauses clauses2 raw jtext dd
      h1 h2 h3 h4 h5]
    constructor <;>
      rw [dictGet_dictSet_ne _ _ _ _ (by decide),
        dictGet_dictSet_ne _ _ _ _ (by decide),
        dictGet_dictSet_ne _ _ _ _ (by decide)]

/-- C3 witness: the exception path at the concrete failing chain satisfies
the invariant. -/
theorem decision_invariant_conditional_witness :
    dictGet (make_decision envChainDown "any claim" (some pdKnee)) "decision"
        = some (.jstr "REJECTED") ∧
    dictGet (make_decision envChainDown "any claim" (some pdKnee)) "coverage_status"
        = some (.jstr "none") :=
  decision_invariant_conditional.1 envChainDown "any claim" (some pdKnee)
    "ReadTimeout: db=10.0.0.7 credentials rejected" (some pdKnee) rfl

set_option maxRecDepth 16384 in
/-- C9 counterexample: the clause count is obtained from a second
`retrieve_clauses` call. Here the first call (whose two clauses were the
ones embedded in the prompt, certified by the chain stub accepting only that
exact prompt) returns two clauses while the second returns one, and the
returned `clauses_count` is 1, not the 2 clauses the prompt embedded. -/
theorem clauses_count_requeried_cex :
    dictGet (make_decision envRecount "knee claim" (some pdKnee)) "clauses_count"
        = some (.jnum 1) ∧
    envRecount.retrieveClauses 0 = .ok ["clause A", "clause B"] ∧
    ¬ dictGet (make_decision envRecount "knee claim" (some pdKnee)) "clauses_count"
        = some (.jnum 2) := by
  have h : dictGet (make_decision envRecount "knee claim" (some pdKnee))
      "clauses_count" = some (.jnum 1) := rfl
  refine ⟨h, rfl, ?_⟩
  intro hc
  rw [h] at hc
  simp at hc

/-- C9 (amended): on a successful decision, `clauses_count` equals the
length of the result of the second `retrieve_clauses` call — issued while
attaching metadata — not of the clause sequence embedded in the prompt; the
two agree when the similarity search answers both calls identically. -/
theorem clauses_count_second_call (env : DecisionEnv) (query : String)
    (pd : PatientData) (clauses clauses2 : List String) (raw jtext : String)
    (dd : PyDict)
    (h1 : env.retrieveClauses 0 = .ok clauses)
    (h2 : env.runChain (decisionPromptText (String.intercalate "\n\n" clauses)
        pd.age pd.gender pd.procedure pd.location pd.duration) = .ok raw)
    (h3 : findJsonSpan raw = some jtext)
    (h4 : env.jsonLoads jtext = .ok dd)
    (h5 : env.retrieveClauses 1 = .ok clauses2) :
    dictGet (make_decision env query (some pd)) "clauses_count"
        = some (.jnum clauses2.length) ∧
    (env.retrieveClauses 1 = env.retrieveClauses 0 →
      dictGet (make_decision env query (some pd)) "clauses_count"
          = some (.jnum clauses.length)) := by
  rw [make_decision_parsed_path env query pd clauses clauses2 raw jtext dd
    h1 h2 h3 h4 h5]
  constructor
  · exact dictGet_dictSet_same _ _ _
  · intro heq
    rw [heq] at h5
    have h7 := h1.symm.trans h5
    injection h7 with h8
    rw [h8]
    exact dictGet_dictSet_same _ _ _

/-- C9 witness: the count at the concrete approving environment, whose two
retrieval calls agree. -/
theorem clauses_count_second_call_witness :
    dictGet (make_decision envApproveKnee qKnee (some pdKnee)) "clauses_count"
        = some (.jnum 1) :=
  (clauses_count_second_call envApproveKnee qKnee pdKnee
    ["Surgeries are covered subject to waiting periods."]
    ["Surgeries are covered subject to waiting periods."]
    rawApproved rawApproved ddApproved rfl rfl rfl rfl rfl).1

/-- C10: on a Decision the data model permits — outcome APPROVED with a null
amount — the summary generator raises a `TypeError` instead of returning a
summary string, because the APPROVED branch applies the thousands currency
format to the amount unconditionally. -/
theorem summary_crashes_on_null_amount :
    get_decision_summary approvedNullAmount =
      .error "TypeError: unsupported format string passed to NoneType.__format__" :=
  rfl

end DecisionEngine

namespace Main

theorem dedupByContent_eq_spec (docs : List Doc) :
    ∀ seen : List String,
      dedupByContent seen docs =
        (specDedupFirstSeen seen (docs.map Doc.page_content)).map Doc.mk := by
  induction docs with
  | nil => intro seen; simp [dedupByContent, specDedupFirstSeen]
  | cons d ds ih =>
    intro seen
    by_cases h : d.page_content ∈ seen <;>
      simp [dedupByContent, specDedupFirstSeen, h, ih]

theorem collectResults_ok (qv : String → Nat → ExtCall (List Doc))
    (res : String → List Doc) :
    ∀ ts : List String, (∀ p ∈ ts, qv p 2 = .ok (res p)) →
      collectResults qv ts = .ok (ts.flatMap res) := by
  intro ts
  induction ts with
  | nil => intro _; simp [collectResults]
  | cons t ts ih =>
    intro h
    have ht := h t (List.mem_cons_self _ _)
    have hts := ih (fun p hp => h p (List.mem_cons_of_mem _ hp))
    simp [collectResults, ht, hts, bind, Except.bind]

theorem collectResults_all_error (qv : String → Nat → ExtCall (List Doc))
    (e : String) :
    ∀ ts : List String, ts ≠ [] → (∀ p, qv p 2 = .error e) →
      collectResults qv ts = .error e := by
  intro ts hne h
  cases ts with
  | nil => exact absurd rfl hne
  | cons t ts => simp [collectResults, h t, bind, Except.bind]

/-- C4: for every phrase sequence, the retrieval section of
`query_rag_system` issues one similarity-search call per phrase for at most
the first 3 phrases with a per-phrase limit of 2, merges the returned
clauses in call order, deduplicates them by exact content equality keeping
each content at its first-seen position, and truncates to 5; in particular,
for phrases `[p1, p2]` whose calls yield contents `[A, B]` and `[B, C]`, the
result is `[A, B, C]`. -/
theorem retrieval_merge_dedup_truncate :
    (∀ (qv : String → Nat → ExtCall (List Doc)) (res : String → List Doc)
      (phrases : List String),
      (∀ p ∈ phrases.take 3, qv p 2 = .ok (res p)) →
      retrievalPhase qv phrases =
        .ok (((specDedupFirstSeen []
          (((phrases.take 3).flatMap res).map Doc.page_content)).map
            Doc.mk).take 5))
    ∧ retrievalPhase qvTwoPhrases ["p1", "p2"] = .ok [⟨"A"⟩, ⟨"B"⟩, ⟨"C"⟩] := by
  constructor
  · intro qv res phrases h
    have hc := collectResults_ok qv res (phrases.take 3) h
    simp [retrievalPhase, hc, dedupByContent_eq_spec, bind, Except.bind]
  · rfl

/-- C4 witness: the general part instantiated at the concrete two-phrase
store. -/
theorem retrieval_merge_dedup_truncate_witness :
    retrievalPhase qvTwoPhrases ["p1", "p2"] =
      .ok (((specDedupFirstSeen []
        (((["p1", "p2"].take 3).flatMap resTwoPhrases).map
          Doc.page_content)).map Doc.mk).take 5) :=
  retrieval_merge_dedup_truncate.1 qvTwoPhrases resTwoPhrases ["p1", "p2"]
    (by
      intro p hp
      simp at hp
      rcases hp with h | h <;> subst h <;> rfl)

/-- C5 counterexample: with the similarity index unreachable, both
`retrieve_clauses` and the retrieval section of `main.query_rag_system`
raise (return the exception) instead of returning an empty clause sequence —
neither has any exception handling, refuting the claim that a retrieval
failure never surfaces to the caller. -/
theorem retrieval_error_surfaces_cex :
    retrievalPhase qvUnreachable ["knee surgery"]
        = .error "ConnectionError: vector index unreachable" ∧
    Retriever.retrieve_clauses Retriever.gdUnreachable "knee surgery"
        = .error "ConnectionError: vector index unreachable" :=
  ⟨rfl, rfl⟩

/-- C5 (amended): an error from the similarity index propagates as an
exception — `retrieve_clauses` re-raises its inner call's failure, and the
per-phrase loop of `main.query_rag_system` aborts with the failure whenever
the index errors. The only guarded function is `retriever.query_rag_system`,
which degrades to a fixed apology string — a prose answer, not an empty
clause sequence. -/
theorem retrieval_error_propagation :
    (∀ (gd : String → ExtCall (List Doc)) (q e : String),
      gd q = .error e → Retriever.retrieve_clauses gd q = .error e)
    ∧ (∀ (qv : String → Nat → ExtCall (List Doc)) (e : String)
      (phrases : List String),
      phrases ≠ [] → (∀ p, qv p 2 = .error e) →
      retrievalPhase qv phrases = .error e)
    ∧ (∀ (chain : String → ExtCall String) (q e : String),
      chain q = .error e →
      Retriever.query_rag_system chain q =
        "Sorry, I couldn\x27t process your query. Please try again.") := by
  refine ⟨?_, ?_, ?_⟩
  · intro gd q e h
    simp [Retriever.retrieve_clauses, h, bind, Except.bind]
  · intro qv e phrases hne h
    have hne3 : phrases.take 3 ≠ [] := by
      cases phrases with
      | nil => exact absurd rfl hne
      | cons t ts => simp [List.take]
    have hc := collectResults_all_error qv e (phrases.take 3) hne3 h
    simp [retrievalPhase, hc, bind, Except.bind]
  · intro chain q e h
    simp [Retriever.query_rag_system, h]

/-- C5 witness: propagation at the concrete unreachable index. -/
theorem retrieval_error_propagation_witness :
    retrievalPhase qvUnreachable ["exclusions"]
      = .error "ConnectionError: vector index unreachable" :=
  retrieval_error_propagation.2.1 qvUnreachable
    "ConnectionError: vector index unreachable" ["exclusions"]
    (by simp) (fun p => rfl)

end Main

end QueryChatbot
